import Mathlib

/-!
# Tic-tac-go: the websocket command handler

A shallow embedding of `app/handlers/websocket.go`: the three operations
`GenerateNewGame`, `JoinGame`, `MakeMove` and the body of the receive loop of
`WebsocketHandler`.

Effects are made explicit in a `World`: the state of the game repository, the
list of repository calls made so far, the list of frames handed to
`ws.WriteJSON`, and the number of identifiers drawn from `uuid.NewV4`.
Logging through `c.Logger()` has no effect on any of these and is left out.
A Go pointer `*models.Game` is an `Option Game` (`none` is `nil`), a Go `error`
is an `Option String` holding `err.Error()` (`none` is `nil`), and dereferencing
a `nil` pointer ends the iteration with `Status.panicked`.
-/

namespace TicTacGo

/-! ## Data model (package `models`, fields as used by the handler) -/

/-- The record `models.Game`: wire fields `game_id`, `first_user_id`,
`second_user_id`, `state`, `last_move_user_id`. -/
structure Game where
  GameId : String
  FirstUserId : String
  SecondUserId : String
  State : String
  LastMoveUserId : String
deriving DecidableEq, Repr

/-- The zero value of `models.Game`. -/
def Game.zero : Game := ⟨"", "", "", "", ""⟩

/-- The record `models.Request`: a command tag and a `game_info` payload. -/
structure Request where
  Command : String
  GameInfo : Game
deriving DecidableEq, Repr

/-- The record `models.Response`, the success frame. -/
structure Response where
  Command : String
  Code : Nat
  GameInfo : Game
  Message : String
deriving DecidableEq, Repr

/-- The record `models.ErrorResponse`, the error frame. -/
structure ErrorResponse where
  Code : Nat
  Error : String
deriving DecidableEq, Repr

/-- A value handed to `ws.WriteJSON`. -/
inductive Frame where
  | response (r : Response)
  | error (e : ErrorResponse)
deriving DecidableEq, Repr

/-! ## Constants -/

def CmdGenerateNewGame : String := "GENERATE_NEW_GAME"
def CmdJoinGame : String := "JOIN_GAME"
def CmdMakeMove : String := "MAKE_MOVE"

/-- The constant `http.StatusOK`. -/
def StatusOK : Nat := 200
/-- The constant `http.StatusCreated`. -/
def StatusCreated : Nat := 201
/-- The constant `http.StatusBadRequest`. -/
def StatusBadRequest : Nat := 400
/-- The constant `http.StatusInternalServerError`. -/
def StatusInternalServerError : Nat := 500

/-- The function `http.StatusText` on the four codes the handler names; the
handler calls it on 200 and 201 only, and the rest of the table of `net/http`
is not reproduced (any other code gives the empty string here). -/
def StatusText (code : Nat) : String :=
  if code = 200 then "OK"
  else if code = 201 then "Created"
  else if code = 400 then "Bad Request"
  else if code = 500 then "Internal Server Error"
  else ""

/-! ## The repository interface and the world -/

/-- The methods of `repositories.GameRepo` the handler calls, over a repository
state `σ`. The package is absent from the sources; its signatures are those of
the call sites: `Create(gameId, userId)` gives a record or an error,
`FindByGameID(gameId)` gives a record or an error and only reads,
`Update(game)` gives an error or `nil`. -/
structure GameRepo (σ : Type) where
  Create : String → String → σ → Except String Game × σ
  FindByGameID : String → σ → Except String Game
  Update : Game → σ → Option String × σ

/-- A call made on the repository. -/
inductive RepoCall where
  | create (gameId userId : String)
  | findByGameID (gameId : String)
  | update (game : Game)
deriving DecidableEq, Repr

/-- What the handler depends on: the repository stored under `"GAME_REPO"` in
the request context and the identifier source, `uuid n` being the string of the
`n`-th call of `uuid.NewV4()`. -/
structure Env (σ : Type) where
  repo : GameRepo σ
  uuid : Nat → String

/-- Everything one connection can observe or change. -/
structure World (σ : Type) where
  store : σ
  calls : List RepoCall
  sent : List Frame
  drawn : Nat
deriving DecidableEq, Repr

/-- Whether the handler goroutine is still in its loop. -/
inductive Status where
  | running
  | panicked
deriving DecidableEq, Repr

/-- The call `uuid.NewV4().String()`. -/
def NewV4 {σ : Type} (env : Env σ) (w : World σ) : String × World σ :=
  (env.uuid w.drawn, { w with drawn := w.drawn + 1 })

/-- The call `ws.WriteJSON(v)`; a write error is only logged. -/
def WriteJSON {σ : Type} (v : Frame) (w : World σ) : World σ :=
  { w with sent := w.sent ++ [v] }

/-- The call `repo.Create(gameId, userId)`, recorded in `calls`. -/
def callCreate {σ : Type} (env : Env σ) (gameId userId : String) (w : World σ) :
    Except String Game × World σ :=
  ((env.repo.Create gameId userId w.store).1,
   { w with store := (env.repo.Create gameId userId w.store).2,
            calls := w.calls ++ [RepoCall.create gameId userId] })

/-- The call `repo.FindByGameID(gameId)`, recorded in `calls`. -/
def callFindByGameID {σ : Type} (env : Env σ) (gameId : String) (w : World σ) :
    Except String Game × World σ :=
  (env.repo.FindByGameID gameId w.store,
   { w with calls := w.calls ++ [RepoCall.findByGameID gameId] })

/-- The call `repo.Update(game)`, recorded in `calls`. -/
def callUpdate {σ : Type} (env : Env σ) (game : Game) (w : World σ) :
    Option String × World σ :=
  ((env.repo.Update game w.store).1,
   { w with store := (env.repo.Update game w.store).2,
            calls := w.calls ++ [RepoCall.update game] })

/-! ## The three operations -/

/-- The function `GenerateNewGame`: draws the user id, then the game id, and
calls `repo.Create(gameId, userId)`. -/
def GenerateNewGame {σ : Type} (env : Env σ) (w : World σ) :
    (Option Game × Option String) × World σ :=
  let userId := (NewV4 env w).1
  let w1 := (NewV4 env w).2
  let gameId := (NewV4 env w1).1
  let w2 := (NewV4 env w1).2
  match callCreate env gameId userId w2 with
  | (Except.error err, w3) => ((none, some err), w3)
  | (Except.ok g, w3) => ((some g, none), w3)

/-- The function `JoinGame`: looks the game up, draws a user id, stores it as
`SecondUserId` (the guard on an occupied seat is commented out in the source)
and updates the repository. -/
def JoinGame {σ : Type} (env : Env σ) (gameId : String) (w : World σ) :
    (Option Game × Option String) × World σ :=
  match callFindByGameID env gameId w with
  | (Except.error err, w1) => ((none, some err), w1)
  | (Except.ok curGame, w1) =>
    let userId := (NewV4 env w1).1
    let w2 := (NewV4 env w1).2
    let curGame1 := { curGame with SecondUserId := userId }
    match callUpdate env curGame1 w2 with
    | (some err, w3) => ((none, some err), w3)
    | (none, w3) => ((some curGame1, none), w3)

/-- The function `MakeMove`: looks the game up, overwrites `State` and
`LastMoveUserId` with the request's values and updates the repository. -/
def MakeMove {σ : Type} (env : Env σ) (game : Game) (w : World σ) :
    (Option Game × Option String) × World σ :=
  match callFindByGameID env game.GameId w with
  | (Except.error err, w1) => ((none, some err), w1)
  | (Except.ok curGame, w1) =>
    let curGame1 := { curGame with State := game.State, LastMoveUserId := game.LastMoveUserId }
    match callUpdate env curGame1 w1 with
    | (some err, w2) => ((none, some err), w2)
    | (none, w2) => ((some curGame1, none), w2)

/-! ## The receive loop -/

/-- The block `if err != nil { ws.WriteJSON(ErrorResponse{500, err.Error()}) }`. -/
def writeInternalError {σ : Type} (err : Option String) (w : World σ) : World σ :=
  match err with
  | some e => WriteJSON (Frame.error ⟨StatusInternalServerError, e⟩) w
  | none => w

/-- The tail of a `case`: build the response from `*gameInfo` and write it.
With `gameInfo = nil` the dereference panics and nothing is written. -/
def writeDeref {σ : Type} (gameInfo : Option Game) (mk : Game → Response) (w : World σ) :
    Status × World σ :=
  match gameInfo with
  | none => (Status.panicked, w)
  | some g => (Status.running, WriteJSON (Frame.response (mk g)) w)

/-- One pass through the body of the `for` loop of `WebsocketHandler` on the
decoded request `req`: the `switch req.Command`. -/
def WebsocketHandler.iteration {σ : Type} (env : Env σ) (req : Request) (w : World σ) :
    Status × World σ :=
  if req.Command = CmdGenerateNewGame then
    let r := GenerateNewGame env w
    let w1 := writeInternalError r.1.2 r.2
    writeDeref r.1.1
      (fun g => { Command := CmdGenerateNewGame, Code := 0, GameInfo := g,
                  Message := StatusText StatusCreated }) w1
  else if req.Command = CmdJoinGame then
    let w0 :=
      if req.GameInfo.GameId ≠ "" then
        WriteJSON (Frame.error ⟨StatusBadRequest, "No game id provided"⟩) w
      else w
    let r := JoinGame env req.GameInfo.GameId w0
    let w1 := writeInternalError r.1.2 r.2
    writeDeref r.1.1
      (fun g => { Command := CmdJoinGame, Code := StatusOK, GameInfo := g,
                  Message := StatusText StatusOK }) w1
  else if req.Command = CmdMakeMove then
    let w0 :=
      if req.GameInfo.GameId ≠ "" ∧ req.GameInfo.State ≠ "" then
        WriteJSON (Frame.error ⟨StatusBadRequest, "No game state provided"⟩) w
      else w
    let r := MakeMove env req.GameInfo w0
    let w1 := writeInternalError r.1.2 r.2
    writeDeref r.1.1
      (fun g => { Command := CmdJoinGame, Code := StatusOK, GameInfo := g,
                  Message := StatusText StatusOK }) w1
  else
    (Status.running,
      WriteJSON (Frame.response { Command := "", Code := StatusOK, GameInfo := Game.zero,
                                  Message := StatusText StatusOK }) w)

/-- The `for` loop of `WebsocketHandler` run on the requests `ws.ReadJSON`
leaves in `req`, in arrival order (after a failed decode the loop goes on with
whatever `req` holds). A panic leaves the loop; the remaining requests are never
read. -/
def WebsocketHandler {σ : Type} (env : Env σ) : List Request → World σ → Status × World σ
  | [], w => (Status.running, w)
  | req :: rest, w =>
    match WebsocketHandler.iteration env req w with
    | (Status.panicked, w1) => (Status.panicked, w1)
    | (Status.running, w1) => WebsocketHandler env rest w1

/-! ## The session store -/

/-- Modelled from the spec: the state of the Session Store, "a keyed repository
mapping session identifier → session record"; the stored records, oldest
first. -/
abbrev Store := List Game

/-- The stored record with key `gameId`, if any. -/
def Store.lookup (st : Store) (gameId : String) : Option Game :=
  st.find? (fun g => decide (g.GameId = gameId))

/-- Every identifier in use in the store: session, creator and joiner ids. -/
def Store.ids (st : Store) : List String :=
  st.flatMap (fun g => [g.GameId, g.FirstUserId, g.SecondUserId])

/-- Modelled from the spec: the Session Store (`repositories.GameRepo`, absent
from the sources), "a keyed repository mapping session identifier → session
record" that "supports create, lookup-by-key, and update-in-place", with
`create(session_id, creator_id) -> SessionRecord | StoreError`,
`find_by_id(session_id) -> SessionRecord | NotFoundError` and
`update(record) -> SessionRecord | StoreError`. The session id is the primary
key: `create` of a key already present and `update` of a key not present are
store errors; a created record has the given session and creator ids and
nothing else set. -/
def memRepo : GameRepo Store where
  Create := fun gameId userId st =>
    match Store.lookup st gameId with
    | some _ => (Except.error "game already exists", st)
    | none => (Except.ok ⟨gameId, userId, "", "", ""⟩, st ++ [⟨gameId, userId, "", "", ""⟩])
  FindByGameID := fun gameId st =>
    match Store.lookup st gameId with
    | some g => Except.ok g
    | none => Except.error "game not found"
  Update := fun game st =>
    match Store.lookup st game.GameId with
    | some _ => (none, st.map (fun g => if g.GameId = game.GameId then game else g))
    | none => (some "game not found", st)

/-- The handler's dependencies with the session store as repository. -/
def memEnv (uuid : Nat → String) : Env Store := ⟨memRepo, uuid⟩

/-- A world that starts from the store `st`, nothing called or sent yet. -/
def World.init {σ : Type} (st : σ) : World σ := ⟨st, [], [], 0⟩

/-- An identifier source for examples: `u`, `uu`, `uuu`, ... -/
def demoUuid (n : Nat) : String := String.mk (List.replicate (n + 1) 'u')

/-- Whether a frame is an error response with code 400. -/
def Frame.isBadRequest : Frame → Bool
  | Frame.error e => decide (e.Code = StatusBadRequest)
  | Frame.response _ => false

/-- Whether a frame is a success response. -/
def Frame.isResponse : Frame → Bool
  | Frame.response _ => true
  | Frame.error _ => false

/-- The frames one loop iteration hands to `ws.WriteJSON`. -/
def WebsocketHandler.written {σ : Type} (env : Env σ) (req : Request) (w : World σ) :
    List Frame :=
  (WebsocketHandler.iteration env req w).2.sent.drop w.sent.length

/-- The repository calls one loop iteration makes. -/
def WebsocketHandler.called {σ : Type} (env : Env σ) (req : Request) (w : World σ) :
    List RepoCall :=
  (WebsocketHandler.iteration env req w).2.calls.drop w.calls.length

/-- The pair `(*models.Game, error)` an operation returns after `repo.Update`
answered `r` for the record `g`. -/
def afterUpdate (r : Option String) (g : Game) : Option Game × Option String :=
  match r with
  | some e => (none, some e)
  | none => (some g, none)

/-- The pair `(*models.Game, error)` `GenerateNewGame` returns after
`repo.Create` answered `r`. -/
def afterCreate (r : Except String Game) : Option Game × Option String :=
  match r with
  | Except.error e => (none, some e)
  | Except.ok g => (some g, none)

/-! ## Unfolding the operations -/

theorem JoinGame_of_find_error {σ : Type} (env : Env σ) (gameId : String) (w : World σ)
    (e : String) (h : env.repo.FindByGameID gameId w.store = Except.error e) :
    JoinGame env gameId w =
      ((none, some e), { w with calls := w.calls ++ [RepoCall.findByGameID gameId] }) := by
  simp [JoinGame, callFindByGameID, h]

theorem MakeMove_of_find_error {σ : Type} (env : Env σ) (game : Game) (w : World σ)
    (e : String) (h : env.repo.FindByGameID game.GameId w.store = Except.error e) :
    MakeMove env game w =
      ((none, some e), { w with calls := w.calls ++ [RepoCall.findByGameID game.GameId] }) := by
  simp [MakeMove, callFindByGameID, h]

theorem JoinGame_of_update {σ : Type} (env : Env σ) (gameId : String) (w : World σ)
    (cur : Game) (r : Option String) (st : σ)
    (hfind : env.repo.FindByGameID gameId w.store = Except.ok cur)
    (hupd : env.repo.Update { cur with SecondUserId := env.uuid w.drawn } w.store = (r, st)) :
    JoinGame env gameId w =
      (afterUpdate r { cur with SecondUserId := env.uuid w.drawn },
       { store := st,
         calls := w.calls ++ [RepoCall.findByGameID gameId,
                   RepoCall.update { cur with SecondUserId := env.uuid w.drawn }],
         sent := w.sent,
         drawn := w.drawn + 1 }) := by
  cases r <;> simp [JoinGame, callFindByGameID, callUpdate, NewV4, hfind, hupd, afterUpdate]

theorem MakeMove_of_update {σ : Type} (env : Env σ) (game : Game) (w : World σ)
    (cur : Game) (r : Option String) (st : σ)
    (hfind : env.repo.FindByGameID game.GameId w.store = Except.ok cur)
    (hupd : env.repo.Update
      { cur with State := game.State, LastMoveUserId := game.LastMoveUserId } w.store = (r, st)) :
    MakeMove env game w =
      (afterUpdate r { cur with State := game.State, LastMoveUserId := game.LastMoveUserId },
       { store := st,
         calls := w.calls ++ [RepoCall.findByGameID game.GameId,
                   RepoCall.update
                     { cur with State := game.State, LastMoveUserId := game.LastMoveUserId }],
         sent := w.sent,
         drawn := w.drawn }) := by
  cases r <;> simp [MakeMove, callFindByGameID, callUpdate, hfind, hupd, afterUpdate]

theorem GenerateNewGame_of_create {σ : Type} (env : Env σ) (w : World σ)
    (r : Except String Game) (st : σ)
    (hcreate : env.repo.Create (env.uuid (w.drawn + 1)) (env.uuid w.drawn) w.store = (r, st)) :
    GenerateNewGame env w =
      (afterCreate r,
       { store := st,
         calls := w.calls ++ [RepoCall.create (env.uuid (w.drawn + 1)) (env.uuid w.drawn)],
         sent := w.sent,
         drawn := w.drawn + 2 }) := by
  cases r <;> simp [GenerateNewGame, callCreate, NewV4, hcreate, afterCreate]

theorem JoinGame_sent {σ : Type} (env : Env σ) (gameId : String) (w : World σ) :
    (JoinGame env gameId w).2.sent = w.sent := by
  cases hfind : env.repo.FindByGameID gameId w.store with
  | error e => rw [JoinGame_of_find_error env gameId w e hfind]
  | ok cur =>
    rw [JoinGame_of_update env gameId w cur _ _ hfind rfl]

theorem MakeMove_sent {σ : Type} (env : Env σ) (game : Game) (w : World σ) :
    (MakeMove env game w).2.sent = w.sent := by
  cases hfind : env.repo.FindByGameID game.GameId w.store with
  | error e => rw [MakeMove_of_find_error env game w e hfind]
  | ok cur =>
    rw [MakeMove_of_update env game w cur _ _ hfind rfl]

theorem GenerateNewGame_sent {σ : Type} (env : Env σ) (w : World σ) :
    (GenerateNewGame env w).2.sent = w.sent := by
  rw [GenerateNewGame_of_create env w _ _ rfl]

/-- On each operation the result is a record without an error or an error
without a record, as the source returns `(nil, err)` or `(g, nil)`. -/
theorem JoinGame_result {σ : Type} (env : Env σ) (gameId : String) (w : World σ) :
    (∃ e, (JoinGame env gameId w).1 = (none, some e)) ∨
    (∃ g, (JoinGame env gameId w).1 = (some g, none)) := by
  cases hfind : env.repo.FindByGameID gameId w.store with
  | error e => rw [JoinGame_of_find_error env gameId w e hfind]; exact Or.inl ⟨e, rfl⟩
  | ok cur =>
    rw [JoinGame_of_update env gameId w cur _ _ hfind rfl]
    cases (env.repo.Update { cur with SecondUserId := env.uuid w.drawn } w.store).1 with
    | none => exact Or.inr ⟨_, rfl⟩
    | some e => exact Or.inl ⟨e, rfl⟩

theorem MakeMove_result {σ : Type} (env : Env σ) (game : Game) (w : World σ) :
    (∃ e, (MakeMove env game w).1 = (none, some e)) ∨
    (∃ g, (MakeMove env game w).1 = (some g, none)) := by
  cases hfind : env.repo.FindByGameID game.GameId w.store with
  | error e => rw [MakeMove_of_find_error env game w e hfind]; exact Or.inl ⟨e, rfl⟩
  | ok cur =>
    rw [MakeMove_of_update env game w cur _ _ hfind rfl]
    cases (env.repo.Update
      { cur with State := game.State, LastMoveUserId := game.LastMoveUserId } w.store).1 with
    | none => exact Or.inr ⟨_, rfl⟩
    | some e => exact Or.inl ⟨e, rfl⟩

theorem GenerateNewGame_result {σ : Type} (env : Env σ) (w : World σ) :
    (∃ e, (GenerateNewGame env w).1 = (none, some e)) ∨
    (∃ g, (GenerateNewGame env w).1 = (some g, none)) := by
  rw [GenerateNewGame_of_create env w _ _ rfl]
  cases (env.repo.Create (env.uuid (w.drawn + 1)) (env.uuid w.drawn) w.store).1 with
  | error e => exact Or.inl ⟨e, rfl⟩
  | ok g => exact Or.inr ⟨g, rfl⟩

/-! ## Unfolding the loop body -/

theorem tail_of_error {σ : Type} (r : (Option Game × Option String) × World σ)
    (mk : Game → Response) (e : String) (h : r.1 = (none, some e)) :
    writeDeref r.1.1 mk (writeInternalError r.1.2 r.2) =
      (Status.panicked, WriteJSON (Frame.error ⟨StatusInternalServerError, e⟩) r.2) := by
  simp [h, writeDeref, writeInternalError]

theorem tail_of_ok {σ : Type} (r : (Option Game × Option String) × World σ)
    (mk : Game → Response) (g : Game) (h : r.1 = (some g, none)) :
    writeDeref r.1.1 mk (writeInternalError r.1.2 r.2) =
      (Status.running, WriteJSON (Frame.response (mk g)) r.2) := by
  simp [h, writeDeref, writeInternalError]

theorem iteration_generate {σ : Type} (env : Env σ) (req : Request) (w : World σ)
    (h : req.Command = CmdGenerateNewGame) :
    WebsocketHandler.iteration env req w =
      writeDeref (GenerateNewGame env w).1.1
        (fun g => { Command := CmdGenerateNewGame, Code := 0, GameInfo := g,
                    Message := StatusText StatusCreated })
        (writeInternalError (GenerateNewGame env w).1.2 (GenerateNewGame env w).2) := by
  simp [WebsocketHandler.iteration, h]

theorem iteration_join {σ : Type} (env : Env σ) (req : Request) (w : World σ)
    (h : req.Command = CmdJoinGame) :
    WebsocketHandler.iteration env req w =
      writeDeref
        (JoinGame env req.GameInfo.GameId
          (if req.GameInfo.GameId ≠ "" then
            WriteJSON (Frame.error ⟨StatusBadRequest, "No game id provided"⟩) w
           else w)).1.1
        (fun g => { Command := CmdJoinGame, Code := StatusOK, GameInfo := g,
                    Message := StatusText StatusOK })
        (writeInternalError
          (JoinGame env req.GameInfo.GameId
            (if req.GameInfo.GameId ≠ "" then
              WriteJSON (Frame.error ⟨StatusBadRequest, "No game id provided"⟩) w
             else w)).1.2
          (JoinGame env req.GameInfo.GameId
            (if req.GameInfo.GameId ≠ "" then
              WriteJSON (Frame.error ⟨StatusBadRequest, "No game id provided"⟩) w
             else w)).2) := by
  have h1 : CmdJoinGame ≠ CmdGenerateNewGame := by decide
  simp [WebsocketHandler.iteration, h, h1]

theorem iteration_move {σ : Type} (env : Env σ) (req : Request) (w : World σ)
    (h : req.Command = CmdMakeMove) :
    WebsocketHandler.iteration env req w =
      writeDeref
        (MakeMove env req.GameInfo
          (if req.GameInfo.GameId ≠ "" ∧ req.GameInfo.State ≠ "" then
            WriteJSON (Frame.error ⟨StatusBadRequest, "No game state provided"⟩) w
           else w)).1.1
        (fun g => { Command := CmdJoinGame, Code := StatusOK, GameInfo := g,
                    Message := StatusText StatusOK })
        (writeInternalError
          (MakeMove env req.GameInfo
            (if req.GameInfo.GameId ≠ "" ∧ req.GameInfo.State ≠ "" then
              WriteJSON (Frame.error ⟨StatusBadRequest, "No game state provided"⟩) w
             else w)).1.2
          (MakeMove env req.GameInfo
            (if req.GameInfo.GameId ≠ "" ∧ req.GameInfo.State ≠ "" then
              WriteJSON (Frame.error ⟨StatusBadRequest, "No game state provided"⟩) w
             else w)).2) := by
  have h1 : CmdMakeMove ≠ CmdGenerateNewGame := by decide
  have h2 : CmdMakeMove ≠ CmdJoinGame := by decide
  simp [WebsocketHandler.iteration, h, h1, h2]

theorem iteration_default {σ : Type} (env : Env σ) (req : Request) (w : World σ)
    (h1 : req.Command ≠ CmdGenerateNewGame) (h2 : req.Command ≠ CmdJoinGame)
    (h3 : req.Command ≠ CmdMakeMove) :
    WebsocketHandler.iteration env req w =
      (Status.running,
        WriteJSON (Frame.response { Command := "", Code := StatusOK, GameInfo := Game.zero,
                                    Message := StatusText StatusOK }) w) := by
  simp [WebsocketHandler.iteration, h1, h2, h3]

/-! ## The session store -/

theorem Store.lookup_key (st : Store) (gameId : String) (cur : Game)
    (h : Store.lookup st gameId = some cur) : cur.GameId = gameId := by
  have := List.find?_some h
  simpa using this

theorem Store.lookup_mem (st : Store) (gameId : String) (cur : Game)
    (h : Store.lookup st gameId = some cur) : cur ∈ st :=
  List.mem_of_find?_eq_some h

theorem Store.mem_ids (st : Store) (g : Game) (h : g ∈ st) :
    g.GameId ∈ Store.ids st ∧ g.FirstUserId ∈ Store.ids st ∧ g.SecondUserId ∈ Store.ids st := by
  simp only [Store.ids, List.mem_flatMap]
  exact ⟨⟨g, h, by simp⟩, ⟨g, h, by simp⟩, ⟨g, h, by simp⟩⟩

/-- After the update of a present key the lookup of that key gives the new
record. -/
theorem Store.lookup_replace (st : Store) (g cur : Game)
    (h : Store.lookup st g.GameId = some cur) :
    Store.lookup (st.map (fun x => if x.GameId = g.GameId then g else x)) g.GameId = some g := by
  induction st with
  | nil => simp [Store.lookup] at h
  | cons x xs ih =>
    by_cases hx : x.GameId = g.GameId
    · simp [Store.lookup, hx]
    · have h2 : Store.lookup xs g.GameId = some cur := by
        simpa [Store.lookup, List.find?_cons, hx] using h
      have := ih h2
      simpa [Store.lookup, List.find?_cons, hx] using this

theorem Store.lookup_replace_key (st : Store) (gameId : String) (g cur : Game)
    (hg : g.GameId = gameId) (h : Store.lookup st gameId = some cur) :
    Store.lookup (st.map (fun x => if x.GameId = gameId then g else x)) gameId = some g := by
  subst hg
  exact Store.lookup_replace st g cur h

theorem memRepo_find (st : Store) (gameId : String) (cur : Game)
    (h : Store.lookup st gameId = some cur) :
    memRepo.FindByGameID gameId st = Except.ok cur := by
  simp [memRepo, h]

theorem memRepo_update (st : Store) (g cur : Game)
    (h : Store.lookup st g.GameId = some cur) :
    memRepo.Update g st =
      (none, st.map (fun x => if x.GameId = g.GameId then g else x)) := by
  simp [memRepo, h]

theorem memRepo_create (st : Store) (gameId userId : String)
    (h : Store.lookup st gameId = none) :
    memRepo.Create gameId userId st =
      (Except.ok ⟨gameId, userId, "", "", ""⟩, st ++ [⟨gameId, userId, "", "", ""⟩]) := by
  simp [memRepo, h]

/-- A key that is not among the identifiers in use is not in the store. -/
theorem Store.lookup_none_of_fresh (st : Store) (gameId : String)
    (h : gameId ∉ Store.ids st) : Store.lookup st gameId = none := by
  cases hl : Store.lookup st gameId with
  | none => rfl
  | some cur =>
    have hk := Store.lookup_key st gameId cur hl
    have hm := (Store.mem_ids st cur (Store.lookup_mem st gameId cur hl)).1
    rw [hk] at hm
    exact absurd hm h

/-- The operation `MakeMove` on a session of the store. -/
theorem MakeMove_mem (uuid : Nat → String) (w : World Store) (game cur : Game)
    (h : Store.lookup w.store game.GameId = some cur) :
    MakeMove (memEnv uuid) game w =
      ((some ⟨cur.GameId, cur.FirstUserId, cur.SecondUserId, game.State, game.LastMoveUserId⟩,
        none),
       { store := w.store.map (fun x => if x.GameId = game.GameId then
            ⟨cur.GameId, cur.FirstUserId, cur.SecondUserId, game.State, game.LastMoveUserId⟩
            else x),
         calls := w.calls ++ [RepoCall.findByGameID game.GameId,
            RepoCall.update
              ⟨cur.GameId, cur.FirstUserId, cur.SecondUserId, game.State, game.LastMoveUserId⟩],
         sent := w.sent,
         drawn := w.drawn }) := by
  have hk := Store.lookup_key _ _ _ h
  have hu := memRepo_update w.store
    ⟨cur.GameId, cur.FirstUserId, cur.SecondUserId, game.State, game.LastMoveUserId⟩ cur
    (by simpa [hk] using h)
  rw [MakeMove_of_update (memEnv uuid) game w cur _ _ (memRepo_find _ _ _ h) hu]
  simp [afterUpdate, hk]

/-- The operation `JoinGame` on a session of the store. -/
theorem JoinGame_mem (uuid : Nat → String) (w : World Store) (gameId : String) (cur : Game)
    (h : Store.lookup w.store gameId = some cur) :
    JoinGame (memEnv uuid) gameId w =
      ((some ⟨cur.GameId, cur.FirstUserId, uuid w.drawn, cur.State, cur.LastMoveUserId⟩, none),
       { store := w.store.map (fun x => if x.GameId = gameId then
            ⟨cur.GameId, cur.FirstUserId, uuid w.drawn, cur.State, cur.LastMoveUserId⟩ else x),
         calls := w.calls ++ [RepoCall.findByGameID gameId,
            RepoCall.update
              ⟨cur.GameId, cur.FirstUserId, uuid w.drawn, cur.State, cur.LastMoveUserId⟩],
         sent := w.sent,
         drawn := w.drawn + 1 }) := by
  have hk := Store.lookup_key _ _ _ h
  have hu := memRepo_update w.store
    ⟨cur.GameId, cur.FirstUserId, uuid w.drawn, cur.State, cur.LastMoveUserId⟩ cur
    (by simpa [hk] using h)
  rw [JoinGame_of_update (memEnv uuid) gameId w cur _ _ (memRepo_find _ _ _ h) hu]
  simp [afterUpdate, hk, memEnv]

/-! ## Claims -/

/-- C4: for every request whose command is none of `GENERATE_NEW_GAME`,
`JOIN_GAME`, `MAKE_MOVE`, one loop iteration writes exactly one frame, the
response with code 200, message "OK", empty command and zero game info; it makes
no repository call and leaves the store as it was. -/
theorem default_case_ack {σ : Type} (env : Env σ) (req : Request) (w : World σ)
    (h1 : req.Command ≠ CmdGenerateNewGame) (h2 : req.Command ≠ CmdJoinGame)
    (h3 : req.Command ≠ CmdMakeMove) :
    (WebsocketHandler.iteration env req w).1 = Status.running ∧
    WebsocketHandler.written env req w =
      [Frame.response { Command := "", Code := 200, GameInfo := ⟨"", "", "", "", ""⟩,
                        Message := "OK" }] ∧
    WebsocketHandler.called env req w = [] ∧
    (WebsocketHandler.iteration env req w).2.calls = w.calls ∧
    (WebsocketHandler.iteration env req w).2.store = w.store := by
  simp [WebsocketHandler.written, WebsocketHandler.called,
    iteration_default env req w h1 h2 h3, WriteJSON, StatusOK, StatusText, Game.zero]

/-- The empty command and an unknown command, on the empty store. -/
theorem default_case_ack_witness :
    WebsocketHandler.written (memEnv demoUuid) ⟨"", Game.zero⟩ (World.init []) =
      [Frame.response { Command := "", Code := 200, GameInfo := ⟨"", "", "", "", ""⟩,
                        Message := "OK" }] ∧
    WebsocketHandler.called (memEnv demoUuid) ⟨"PING", Game.zero⟩ (World.init []) = [] :=
  ⟨(default_case_ack (memEnv demoUuid) ⟨"", Game.zero⟩ (World.init [])
      (by decide) (by decide) (by decide)).2.1,
   (default_case_ack (memEnv demoUuid) ⟨"PING", Game.zero⟩ (World.init [])
      (by decide) (by decide) (by decide)).2.2.1⟩

/-- When the 400 frame is among the frames of an iteration. -/
theorem written_bad_request {σ : Type} (env : Env σ) (req : Request) (w : World σ) :
    (∃ f ∈ WebsocketHandler.written env req w, f.isBadRequest = true) ↔
      ((req.Command = CmdJoinGame ∧ req.GameInfo.GameId ≠ "") ∨
       (req.Command = CmdMakeMove ∧ req.GameInfo.GameId ≠ "" ∧ req.GameInfo.State ≠ "")) := by
  have hJG : CmdJoinGame ≠ CmdGenerateNewGame := by decide
  have hMG : CmdMakeMove ≠ CmdGenerateNewGame := by decide
  have hMJ : CmdMakeMove ≠ CmdJoinGame := by decide
  unfold WebsocketHandler.written
  by_cases hg : req.Command = CmdGenerateNewGame
  · rw [iteration_generate env req w hg]
    have hs := GenerateNewGame_sent env w
    rcases GenerateNewGame_result env w with ⟨e, he⟩ | ⟨g, hok⟩
    · rw [tail_of_error _ _ e he]
      simp [WriteJSON, hs, Frame.isBadRequest, hg, hJG.symm, hMG.symm,
        StatusInternalServerError, StatusBadRequest]
    · rw [tail_of_ok _ _ g hok]
      simp [WriteJSON, hs, Frame.isBadRequest, hg, hJG.symm, hMG.symm]
  · by_cases hj : req.Command = CmdJoinGame
    · rw [iteration_join env req w hj]
      by_cases hid : req.GameInfo.GameId ≠ ""
      · rw [if_pos hid]
        have hs := JoinGame_sent env req.GameInfo.GameId
          (WriteJSON (Frame.error ⟨StatusBadRequest, "No game id provided"⟩) w)
        rcases JoinGame_result env req.GameInfo.GameId
          (WriteJSON (Frame.error ⟨StatusBadRequest, "No game id provided"⟩) w)
          with ⟨e, he⟩ | ⟨g, hok⟩
        · rw [tail_of_error _ _ e he]
          simp only [WriteJSON] at hs ⊢
          simp [hs, Frame.isBadRequest, hj, hid]
        · rw [tail_of_ok _ _ g hok]
          simp only [WriteJSON] at hs ⊢
          simp [hs, Frame.isBadRequest, hj, hid]
      · rw [if_neg hid]
        have hs := JoinGame_sent env req.GameInfo.GameId w
        rcases JoinGame_result env req.GameInfo.GameId w with ⟨e, he⟩ | ⟨g, hok⟩
        · rw [tail_of_error _ _ e he]
          simp only [WriteJSON] at hs ⊢
          simp [hs, Frame.isBadRequest, hj, hMJ.symm, hid,
            StatusInternalServerError, StatusBadRequest]
        · rw [tail_of_ok _ _ g hok]
          simp only [WriteJSON] at hs ⊢
          simp [hs, Frame.isBadRequest, hj, hMJ.symm, hid]
    · by_cases hm : req.Command = CmdMakeMove
      · rw [iteration_move env req w hm]
        by_cases hid : req.GameInfo.GameId ≠ "" ∧ req.GameInfo.State ≠ ""
        · rw [if_pos hid]
          have hs := MakeMove_sent env req.GameInfo
            (WriteJSON (Frame.error ⟨StatusBadRequest, "No game state provided"⟩) w)
          rcases MakeMove_result env req.GameInfo
            (WriteJSON (Frame.error ⟨StatusBadRequest, "No game state provided"⟩) w)
            with ⟨e, he⟩ | ⟨g, hok⟩
          · rw [tail_of_error _ _ e he]
            simp only [WriteJSON] at hs ⊢
            simp [hs, Frame.isBadRequest, hm, hid]
          · rw [tail_of_ok _ _ g hok]
            simp only [WriteJSON] at hs ⊢
            simp [hs, Frame.isBadRequest, hm, hid]
        · rw [if_neg hid]
          have hs := MakeMove_sent env req.GameInfo w
          have hno : ¬ ((req.Command = CmdJoinGame ∧ req.GameInfo.GameId ≠ "") ∨
              (req.Command = CmdMakeMove ∧ req.GameInfo.GameId ≠ "" ∧
                req.GameInfo.State ≠ "")) := by
            rintro (⟨h1, _⟩ | ⟨_, h2⟩)
            · exact hj h1
            · exact hid h2
          rcases MakeMove_result env req.GameInfo w with ⟨e, he⟩ | ⟨g, hok⟩
          · rw [tail_of_error _ _ e he]
            simp only [WriteJSON] at hs ⊢
            simp only [hs, iff_false_intro hno, iff_false]
            simp [Frame.isBadRequest, StatusInternalServerError, StatusBadRequest]
          · rw [tail_of_ok _ _ g hok]
            simp only [WriteJSON] at hs ⊢
            simp only [hs, iff_false_intro hno, iff_false]
            simp [Frame.isBadRequest]
      · rw [iteration_default env req w hg hj hm]
        simp [WriteJSON, Frame.isBadRequest, hj, hm]

/-- C7: for every request, one loop iteration writes an error frame with code
400 if and only if the command is `JOIN_GAME` and `game_id` is non-empty, or the
command is `MAKE_MOVE` and both `game_id` and `state` are non-empty; so a
`JOIN_GAME` with an empty `game_id` and a `MAKE_MOVE` with an empty `game_id` or
an empty `state` get no 400 frame. -/
theorem bad_request_iff {σ : Type} (env : Env σ) (req : Request) (w : World σ) :
    (∃ f ∈ WebsocketHandler.written env req w, f.isBadRequest = true) ↔
      ((req.Command = CmdJoinGame ∧ req.GameInfo.GameId ≠ "") ∨
       (req.Command = CmdMakeMove ∧ req.GameInfo.GameId ≠ "" ∧ req.GameInfo.State ≠ "")) :=
  written_bad_request env req w

/-- C3: for every `JOIN_GAME` or `MAKE_MOVE` request whose `game_id` the
repository lookup does not resolve (it fails with the error `e`), the loop
iteration writes the error frame with code 500 and message `e`, writes no
success response, makes the lookup as its only repository call (no update), and
leaves the store as it was. -/
theorem lookup_failure_response {σ : Type} (env : Env σ) (req : Request) (w : World σ)
    (e : String)
    (hcmd : req.Command = CmdJoinGame ∨ req.Command = CmdMakeMove)
    (hfind : env.repo.FindByGameID req.GameInfo.GameId w.store = Except.error e) :
    Frame.error ⟨500, e⟩ ∈ WebsocketHandler.written env req w ∧
    (∀ f ∈ WebsocketHandler.written env req w, f.isResponse = false) ∧
    WebsocketHandler.called env req w = [RepoCall.findByGameID req.GameInfo.GameId] ∧
    (WebsocketHandler.iteration env req w).2.store = w.store := by
  unfold WebsocketHandler.written WebsocketHandler.called
  rcases hcmd with hj | hm
  · rw [iteration_join env req w hj]
    by_cases hid : req.GameInfo.GameId ≠ ""
    · rw [if_pos hid]
      have hop := JoinGame_of_find_error env req.GameInfo.GameId
        (WriteJSON (Frame.error ⟨StatusBadRequest, "No game id provided"⟩) w) e hfind
      rw [tail_of_error _ _ e (by rw [hop]), hop]
      simp [WriteJSON, Frame.isResponse, StatusInternalServerError]
    · rw [if_neg hid]
      have hop := JoinGame_of_find_error env req.GameInfo.GameId w e hfind
      rw [tail_of_error _ _ e (by rw [hop]), hop]
      simp [WriteJSON, Frame.isResponse, StatusInternalServerError]
  · rw [iteration_move env req w hm]
    by_cases hid : req.GameInfo.GameId ≠ "" ∧ req.GameInfo.State ≠ ""
    · rw [if_pos hid]
      have hop := MakeMove_of_find_error env req.GameInfo
        (WriteJSON (Frame.error ⟨StatusBadRequest, "No game state provided"⟩) w) e hfind
      rw [tail_of_error _ _ e (by rw [hop]), hop]
      simp [WriteJSON, Frame.isResponse, StatusInternalServerError]
    · rw [if_neg hid]
      have hop := MakeMove_of_find_error env req.GameInfo w e hfind
      rw [tail_of_error _ _ e (by rw [hop]), hop]
      simp [WriteJSON, Frame.isResponse, StatusInternalServerError]

/-- A `JOIN_GAME` for the unknown id `nope` on the empty store. -/
theorem lookup_failure_response_witness :
    Frame.error ⟨500, "game not found"⟩ ∈
      WebsocketHandler.written (memEnv demoUuid)
        ⟨"JOIN_GAME", { Game.zero with GameId := "nope" }⟩ (World.init []) ∧
    (WebsocketHandler.iteration (memEnv demoUuid)
        ⟨"JOIN_GAME", { Game.zero with GameId := "nope" }⟩ (World.init [])).2.store = [] :=
  ⟨(lookup_failure_response (memEnv demoUuid)
      ⟨"JOIN_GAME", { Game.zero with GameId := "nope" }⟩ (World.init []) "game not found"
      (Or.inl rfl) rfl).1,
   (lookup_failure_response (memEnv demoUuid)
      ⟨"JOIN_GAME", { Game.zero with GameId := "nope" }⟩ (World.init []) "game not found"
      (Or.inl rfl) rfl).2.2.2⟩

/-- C1: for every store and every `MAKE_MOVE` input whose `game_id` names a
stored session `cur`, `MakeMove` succeeds; the record it passes to the
repository update, returns, and leaves stored is `cur` with `state` and
`last_move_user_id` replaced by exactly the request's values (whoever the mover
is) and `game_id`, `first_user_id`, `second_user_id` unchanged; a second move on
the same session replaces both values again. -/
theorem MakeMove_overwrites (uuid : Nat → String) (w : World Store) (game cur : Game)
    (h : Store.lookup w.store game.GameId = some cur) :
    (MakeMove (memEnv uuid) game w).1 =
      (some ⟨cur.GameId, cur.FirstUserId, cur.SecondUserId, game.State, game.LastMoveUserId⟩,
       none) ∧
    (MakeMove (memEnv uuid) game w).2.calls =
      w.calls ++ [RepoCall.findByGameID game.GameId,
        RepoCall.update
          ⟨cur.GameId, cur.FirstUserId, cur.SecondUserId, game.State, game.LastMoveUserId⟩] ∧
    Store.lookup (MakeMove (memEnv uuid) game w).2.store game.GameId =
      some ⟨cur.GameId, cur.FirstUserId, cur.SecondUserId, game.State, game.LastMoveUserId⟩ ∧
    ∀ next : Game, next.GameId = game.GameId →
      (MakeMove (memEnv uuid) next (MakeMove (memEnv uuid) game w).2).1 =
        (some ⟨cur.GameId, cur.FirstUserId, cur.SecondUserId, next.State, next.LastMoveUserId⟩,
         none) ∧
      Store.lookup (MakeMove (memEnv uuid) next (MakeMove (memEnv uuid) game w).2).2.store
          game.GameId =
        some ⟨cur.GameId, cur.FirstUserId, cur.SecondUserId, next.State, next.LastMoveUserId⟩ := by
  have hk := Store.lookup_key _ _ _ h
  have hstored : Store.lookup (MakeMove (memEnv uuid) game w).2.store game.GameId =
      some ⟨cur.GameId, cur.FirstUserId, cur.SecondUserId, game.State, game.LastMoveUserId⟩ := by
    rw [MakeMove_mem uuid w game cur h]
    exact Store.lookup_replace_key w.store game.GameId _ cur hk h
  refine ⟨by rw [MakeMove_mem uuid w game cur h], by rw [MakeMove_mem uuid w game cur h],
    hstored, ?_⟩
  intro next hnext
  rw [← hnext] at hstored ⊢
  have h2 := MakeMove_mem uuid (MakeMove (memEnv uuid) game w).2 next _ hstored
  refine ⟨by rw [h2], ?_⟩
  rw [h2]
  exact Store.lookup_replace_key _ next.GameId _ _ (by rw [hk, hnext]) hstored

/-- Two moves on the only session of a store, the second by another mover. -/
theorem MakeMove_overwrites_witness :
    (MakeMove (memEnv demoUuid) ⟨"g", "", "", "X at 0,0", "c"⟩
        (World.init [⟨"g", "c", "j", "", ""⟩])).1 =
      (some ⟨"g", "c", "j", "X at 0,0", "c"⟩, none) ∧
    (MakeMove (memEnv demoUuid) ⟨"g", "", "", "O at 1,1", "j"⟩
        (MakeMove (memEnv demoUuid) ⟨"g", "", "", "X at 0,0", "c"⟩
          (World.init [⟨"g", "c", "j", "", ""⟩])).2).1 =
      (some ⟨"g", "c", "j", "O at 1,1", "j"⟩, none) :=
  ⟨(MakeMove_overwrites demoUuid (World.init [⟨"g", "c", "j", "", ""⟩])
      ⟨"g", "", "", "X at 0,0", "c"⟩ ⟨"g", "c", "j", "", ""⟩ (by decide)).1,
   ((MakeMove_overwrites demoUuid (World.init [⟨"g", "c", "j", "", ""⟩])
      ⟨"g", "", "", "X at 0,0", "c"⟩ ⟨"g", "c", "j", "", ""⟩ (by decide)).2.2.2
      ⟨"g", "", "", "O at 1,1", "j"⟩ rfl).1⟩

/-- C2: for every store and every `game_id` that names a stored session `cur`,
`JoinGame` succeeds; the record it passes to the repository update, returns, and
leaves stored is `cur` with `second_user_id` replaced by the identifier just
drawn, and the other four fields unchanged; when the generator gives an
identifier that is not in use, the new `second_user_id` differs from
`first_user_id`. -/
theorem JoinGame_sets_joiner (uuid : Nat → String) (w : World Store) (gameId : String)
    (cur : Game) (h : Store.lookup w.store gameId = some cur)
    (hfresh : uuid w.drawn ∉ Store.ids w.store) :
    (JoinGame (memEnv uuid) gameId w).1 =
      (some ⟨cur.GameId, cur.FirstUserId, uuid w.drawn, cur.State, cur.LastMoveUserId⟩, none) ∧
    (JoinGame (memEnv uuid) gameId w).2.calls =
      w.calls ++ [RepoCall.findByGameID gameId,
        RepoCall.update
          ⟨cur.GameId, cur.FirstUserId, uuid w.drawn, cur.State, cur.LastMoveUserId⟩] ∧
    Store.lookup (JoinGame (memEnv uuid) gameId w).2.store gameId =
      some ⟨cur.GameId, cur.FirstUserId, uuid w.drawn, cur.State, cur.LastMoveUserId⟩ ∧
    uuid w.drawn ≠ cur.FirstUserId := by
  have hk := Store.lookup_key _ _ _ h
  refine ⟨by rw [JoinGame_mem uuid w gameId cur h], by rw [JoinGame_mem uuid w gameId cur h],
    ?_, ?_⟩
  · rw [JoinGame_mem uuid w gameId cur h]
    exact Store.lookup_replace_key w.store gameId _ cur hk h
  · intro heq
    apply hfresh
    rw [heq]
    exact (Store.mem_ids w.store cur (Store.lookup_mem _ _ _ h)).2.1

/-- A join of the only session of a store, after two identifiers were drawn. -/
theorem JoinGame_sets_joiner_witness :
    (JoinGame (memEnv demoUuid) "uu" ⟨[⟨"uu", "u", "", "", ""⟩], [], [], 2⟩).1 =
      (some ⟨"uu", "u", "uuu", "", ""⟩, none) ∧
    demoUuid 2 ≠ "u" :=
  ⟨(JoinGame_sets_joiner demoUuid ⟨[⟨"uu", "u", "", "", ""⟩], [], [], 2⟩ "uu"
      ⟨"uu", "u", "", "", ""⟩ (by decide) (by decide)).1,
   (JoinGame_sets_joiner demoUuid ⟨[⟨"uu", "u", "", "", ""⟩], [], [], 2⟩ "uu"
      ⟨"uu", "u", "", "", ""⟩ (by decide) (by decide)).2.2.2⟩

/-- C9: a failed precondition check does not stop the operation. For every
request on which the 400 frame is written (only `JOIN_GAME` and `MAKE_MOVE`
requests are such) and whose `game_id` names a stored session, the same
iteration goes on without a panic,
makes the lookup and the update, leaves the store exactly as the operation run
without the check leaves it, and writes two frames: the 400 error and then a
response with code 200 carrying the updated record. -/
theorem rejected_request_still_runs (uuid : Nat → String) (w : World Store) (req : Request)
    (cur : Game)
    (hbad : ∃ f ∈ WebsocketHandler.written (memEnv uuid) req w, f.isBadRequest = true)
    (h : Store.lookup w.store req.GameInfo.GameId = some cur) :
    (WebsocketHandler.iteration (memEnv uuid) req w).1 = Status.running ∧
    (WebsocketHandler.iteration (memEnv uuid) req w).2.store =
      (if req.Command = CmdJoinGame then (JoinGame (memEnv uuid) req.GameInfo.GameId w).2.store
       else (MakeMove (memEnv uuid) req.GameInfo w).2.store) ∧
    ∃ (bad : ErrorResponse) (r : Response),
      WebsocketHandler.written (memEnv uuid) req w = [Frame.error bad, Frame.response r] ∧
      bad.Code = 400 ∧ r.Code = 200 ∧
      WebsocketHandler.called (memEnv uuid) req w =
        [RepoCall.findByGameID req.GameInfo.GameId, RepoCall.update r.GameInfo] ∧
      Store.lookup (WebsocketHandler.iteration (memEnv uuid) req w).2.store
        req.GameInfo.GameId = some r.GameInfo := by
  have hMJ : CmdMakeMove ≠ CmdJoinGame := by decide
  have hk := Store.lookup_key _ _ _ h
  have hrej := (written_bad_request (memEnv uuid) req w).mp hbad
  clear hbad
  unfold WebsocketHandler.written WebsocketHandler.called
  rcases hrej with ⟨hj, hid⟩ | ⟨hm, hid⟩
  · rw [iteration_join (memEnv uuid) req w hj, if_pos hid, if_pos hj]
    have hop := JoinGame_mem uuid
      (WriteJSON (Frame.error ⟨StatusBadRequest, "No game id provided"⟩) w)
      req.GameInfo.GameId cur h
    rw [tail_of_ok _ _ _ (by rw [hop]), hop, JoinGame_mem uuid w req.GameInfo.GameId cur h]
    refine ⟨rfl, rfl, ⟨StatusBadRequest, "No game id provided"⟩,
      ⟨CmdJoinGame, StatusOK,
        ⟨cur.GameId, cur.FirstUserId, uuid w.drawn, cur.State, cur.LastMoveUserId⟩,
        StatusText StatusOK⟩, ?_, rfl, rfl, ?_, ?_⟩
    · simp [WriteJSON]
    · simp [WriteJSON]
    · exact Store.lookup_replace_key w.store req.GameInfo.GameId _ cur hk h
  · rw [iteration_move (memEnv uuid) req w hm, if_pos hid, if_neg (by rw [hm]; exact hMJ)]
    have hop := MakeMove_mem uuid
      (WriteJSON (Frame.error ⟨StatusBadRequest, "No game state provided"⟩) w)
      req.GameInfo cur h
    rw [tail_of_ok _ _ _ (by rw [hop]), hop, MakeMove_mem uuid w req.GameInfo cur h]
    refine ⟨rfl, rfl, ⟨StatusBadRequest, "No game state provided"⟩,
      ⟨CmdJoinGame, StatusOK,
        ⟨cur.GameId, cur.FirstUserId, cur.SecondUserId, req.GameInfo.State,
          req.GameInfo.LastMoveUserId⟩,
        StatusText StatusOK⟩, ?_, rfl, rfl, ?_, ?_⟩
    · simp [WriteJSON]
    · simp [WriteJSON]
    · exact Store.lookup_replace_key w.store req.GameInfo.GameId _ cur hk h

/-- A `JOIN_GAME` with the id of the only session of a store. -/
theorem rejected_request_still_runs_witness :
    (WebsocketHandler.iteration (memEnv demoUuid)
        ⟨"JOIN_GAME", { Game.zero with GameId := "g" }⟩
        (World.init [⟨"g", "c", "", "", ""⟩])).1 = Status.running ∧
    (WebsocketHandler.iteration (memEnv demoUuid)
        ⟨"JOIN_GAME", { Game.zero with GameId := "g" }⟩
        (World.init [⟨"g", "c", "", "", ""⟩])).2.store = [⟨"g", "c", "u", "", ""⟩] :=
  ⟨(rejected_request_still_runs demoUuid (World.init [⟨"g", "c", "", "", ""⟩])
      ⟨"JOIN_GAME", { Game.zero with GameId := "g" }⟩ ⟨"g", "c", "", "", ""⟩
      ⟨Frame.error ⟨400, "No game id provided"⟩, by decide, by decide⟩
      (by decide)).1,
   (rejected_request_still_runs demoUuid (World.init [⟨"g", "c", "", "", ""⟩])
      ⟨"JOIN_GAME", { Game.zero with GameId := "g" }⟩ ⟨"g", "c", "", "", ""⟩
      ⟨Frame.error ⟨400, "No game id provided"⟩, by decide, by decide⟩
      (by decide)).2.1⟩

/-- C6, as stated, fails: the store holds a session whose creator id is `u`, the
identifier source gives `u` and `uu`, the store's create succeeds, and the
record `GenerateNewGame` returns has the creator id `u`, an identifier of an
existing session. -/
theorem GenerateNewGame_creator_in_use :
    memRepo.Create (demoUuid 1) (demoUuid 0) [⟨"a", "u", "", "", ""⟩] =
      (Except.ok ⟨"uu", "u", "", "", ""⟩,
       [⟨"a", "u", "", "", ""⟩, ⟨"uu", "u", "", "", ""⟩]) ∧
    (GenerateNewGame (memEnv demoUuid) (World.init [⟨"a", "u", "", "", ""⟩])).1 =
      (some ⟨"uu", "u", "", "", ""⟩, none) ∧
    ¬ (∀ g : Game,
        (GenerateNewGame (memEnv demoUuid) (World.init [⟨"a", "u", "", "", ""⟩])).1 =
          (some g, none) →
        g.GameId ≠ "" ∧ g.FirstUserId ≠ "" ∧
        g.GameId ∉ Store.ids [⟨"a", "u", "", "", ""⟩] ∧
        g.FirstUserId ∉ Store.ids [⟨"a", "u", "", "", ""⟩] ∧
        g.SecondUserId = "") := by
  refine ⟨rfl, rfl, ?_⟩
  intro hall
  have h := (hall ⟨"uu", "u", "", "", ""⟩ rfl).2.2.2.1
  revert h
  decide

/-- C6, amended: `GenerateNewGame` draws two identifiers and makes one
repository call, `Create` with the second identifier as session id and the first
as creator id. When the store's create succeeds it returns the store's record
unchanged: the record whose session id and creator id are these two identifiers
and whose joiner id is empty; its session id was not the id of a stored session,
and it is now stored under that id. When the store's create fails it returns the
store's error and no record. The code checks neither emptiness nor use of the
identifiers: given that the generator returns two non-empty identifiers that are
not in use in the store, the create succeeds and the record has a non-empty
session id and creator id, both different from every identifier of a stored
session, and an empty joiner id. -/
theorem GenerateNewGame_creates (uuid : Nat → String) (w : World Store) :
    (GenerateNewGame (memEnv uuid) w).2.drawn = w.drawn + 2 ∧
    (GenerateNewGame (memEnv uuid) w).2.calls =
      w.calls ++ [RepoCall.create (uuid (w.drawn + 1)) (uuid w.drawn)] ∧
    (∀ (g : Game) (st : Store),
      memRepo.Create (uuid (w.drawn + 1)) (uuid w.drawn) w.store = (Except.ok g, st) →
        (GenerateNewGame (memEnv uuid) w).1 = (some g, none) ∧
        (GenerateNewGame (memEnv uuid) w).2.store = st ∧
        g = ⟨uuid (w.drawn + 1), uuid w.drawn, "", "", ""⟩ ∧
        Store.lookup w.store g.GameId = none ∧
        Store.lookup st g.GameId = some g) ∧
    (∀ (e : String) (st : Store),
      memRepo.Create (uuid (w.drawn + 1)) (uuid w.drawn) w.store = (Except.error e, st) →
        (GenerateNewGame (memEnv uuid) w).1 = (none, some e)) ∧
    (uuid w.drawn ≠ "" → uuid (w.drawn + 1) ≠ "" →
      uuid w.drawn ∉ Store.ids w.store → uuid (w.drawn + 1) ∉ Store.ids w.store →
        ∃ g : Game, (GenerateNewGame (memEnv uuid) w).1 = (some g, none) ∧
          Store.lookup (GenerateNewGame (memEnv uuid) w).2.store g.GameId = some g ∧
          g.GameId ≠ "" ∧ g.FirstUserId ≠ "" ∧
          g.GameId ∉ Store.ids w.store ∧ g.FirstUserId ∉ Store.ids w.store ∧
          g.SecondUserId = "") := by
  have hgen := GenerateNewGame_of_create (memEnv uuid) w _ _ rfl
  have hstored : ∀ st : Store, ∀ gameId userId : String, Store.lookup st gameId = none →
      Store.lookup (st ++ [⟨gameId, userId, "", "", ""⟩]) gameId =
        some ⟨gameId, userId, "", "", ""⟩ := by
    intro st gameId userId hn
    unfold Store.lookup at hn ⊢
    rw [List.find?_append, hn]
    simp
  refine ⟨by rw [hgen], by rw [hgen]; rfl, ?_, ?_, ?_⟩
  · intro g st hc
    have hc2 : (memEnv uuid).repo.Create ((memEnv uuid).uuid (w.drawn + 1))
        ((memEnv uuid).uuid w.drawn) w.store = (Except.ok g, st) := hc
    rw [GenerateNewGame_of_create (memEnv uuid) w _ _ hc2]
    refine ⟨rfl, rfl, ?_⟩
    cases hl : Store.lookup w.store (uuid (w.drawn + 1)) with
    | some c => simp [memRepo, hl] at hc
    | none =>
      rw [memRepo_create _ _ _ hl] at hc
      simp only [Prod.mk.injEq, Except.ok.injEq] at hc
      obtain ⟨hg, hst⟩ := hc
      subst hg
      subst hst
      exact ⟨rfl, hl, hstored _ _ _ hl⟩
  · intro e st hc
    have hc2 : (memEnv uuid).repo.Create ((memEnv uuid).uuid (w.drawn + 1))
        ((memEnv uuid).uuid w.drawn) w.store = (Except.error e, st) := hc
    rw [GenerateNewGame_of_create (memEnv uuid) w _ _ hc2]
    rfl
  · intro hu hg hfu hfg
    have hn := Store.lookup_none_of_fresh _ _ hfg
    have hc := memRepo_create w.store (uuid (w.drawn + 1)) (uuid w.drawn) hn
    have hc2 : (memEnv uuid).repo.Create ((memEnv uuid).uuid (w.drawn + 1))
        ((memEnv uuid).uuid w.drawn) w.store = _ := hc
    rw [GenerateNewGame_of_create (memEnv uuid) w _ _ hc2]
    exact ⟨⟨uuid (w.drawn + 1), uuid w.drawn, "", "", ""⟩, rfl, hstored _ _ _ hn,
      hg, hu, hfg, hfu, rfl⟩

/-- A create on a store that holds one session: the record returned and stored,
and its identifiers, which the source `u`, `uu`, ... gives fresh. -/
theorem GenerateNewGame_creates_witness :
    ((GenerateNewGame (memEnv demoUuid) (World.init [⟨"a", "b", "c", "", ""⟩])).1 =
        (some ⟨"uu", "u", "", "", ""⟩, none) ∧
      (GenerateNewGame (memEnv demoUuid) (World.init [⟨"a", "b", "c", "", ""⟩])).2.store =
        [⟨"a", "b", "c", "", ""⟩, ⟨"uu", "u", "", "", ""⟩] ∧
      (⟨"uu", "u", "", "", ""⟩ : Game) = ⟨demoUuid 1, demoUuid 0, "", "", ""⟩ ∧
      Store.lookup [⟨"a", "b", "c", "", ""⟩] "uu" = none ∧
      Store.lookup [⟨"a", "b", "c", "", ""⟩, ⟨"uu", "u", "", "", ""⟩] "uu" =
        some ⟨"uu", "u", "", "", ""⟩) ∧
    ∃ g : Game,
      (GenerateNewGame (memEnv demoUuid) (World.init [⟨"a", "b", "c", "", ""⟩])).1 =
        (some g, none) ∧
      Store.lookup
        (GenerateNewGame (memEnv demoUuid) (World.init [⟨"a", "b", "c", "", ""⟩])).2.store
        g.GameId = some g ∧
      g.GameId ≠ "" ∧ g.FirstUserId ≠ "" ∧
      g.GameId ∉ Store.ids [⟨"a", "b", "c", "", ""⟩] ∧
      g.FirstUserId ∉ Store.ids [⟨"a", "b", "c", "", ""⟩] ∧
      g.SecondUserId = "" :=
  ⟨(GenerateNewGame_creates demoUuid (World.init [⟨"a", "b", "c", "", ""⟩])).2.2.1
      ⟨"uu", "u", "", "", ""⟩ [⟨"a", "b", "c", "", ""⟩, ⟨"uu", "u", "", "", ""⟩] rfl,
   (GenerateNewGame_creates demoUuid (World.init [⟨"a", "b", "c", "", ""⟩])).2.2.2.2
      (by decide) (by decide) (by decide) (by decide)⟩

/-- Whenever an operation returns an error, the iteration panics on the
dereference of the missing record after the error frame is written. -/
theorem iteration_panics_of_lookup_error {σ : Type} (env : Env σ) (req : Request)
    (w : World σ) (e : String)
    (hcmd : req.Command = CmdJoinGame ∨ req.Command = CmdMakeMove)
    (hfind : env.repo.FindByGameID req.GameInfo.GameId w.store = Except.error e) :
    (WebsocketHandler.iteration env req w).1 = Status.panicked := by
  rcases hcmd with hj | hm
  · rw [iteration_join env req w hj]
    by_cases hid : req.GameInfo.GameId ≠ ""
    · rw [if_pos hid]
      have hop := JoinGame_of_find_error env req.GameInfo.GameId
        (WriteJSON (Frame.error ⟨StatusBadRequest, "No game id provided"⟩) w) e hfind
      rw [tail_of_error _ _ e (by rw [hop])]
    · rw [if_neg hid]
      have hop := JoinGame_of_find_error env req.GameInfo.GameId w e hfind
      rw [tail_of_error _ _ e (by rw [hop])]
  · rw [iteration_move env req w hm]
    by_cases hid : req.GameInfo.GameId ≠ "" ∧ req.GameInfo.State ≠ ""
    · rw [if_pos hid]
      have hop := MakeMove_of_find_error env req.GameInfo
        (WriteJSON (Frame.error ⟨StatusBadRequest, "No game state provided"⟩) w) e hfind
      rw [tail_of_error _ _ e (by rw [hop])]
    · rw [if_neg hid]
      have hop := MakeMove_of_find_error env req.GameInfo w e hfind
      rw [tail_of_error _ _ e (by rw [hop])]

/-- C5 (the code departs from it): a `JOIN_GAME` for an id that is not in the
store writes the 500 error frame and then panics on `*gameInfo`; the loop is
left, and a request that follows on the connection is never answered. -/
theorem failed_join_leaves_loop :
    WebsocketHandler.iteration (memEnv demoUuid)
        ⟨"JOIN_GAME", ⟨"nope", "", "", "", ""⟩⟩ (World.init []) =
      (Status.panicked,
        ⟨[], [RepoCall.findByGameID "nope"],
         [Frame.error ⟨400, "No game id provided"⟩, Frame.error ⟨500, "game not found"⟩], 0⟩) ∧
    WebsocketHandler (memEnv demoUuid)
        [⟨"JOIN_GAME", ⟨"nope", "", "", "", ""⟩⟩, ⟨"PING", ⟨"", "", "", "", ""⟩⟩]
        (World.init []) =
      (Status.panicked,
        ⟨[], [RepoCall.findByGameID "nope"],
         [Frame.error ⟨400, "No game id provided"⟩, Frame.error ⟨500, "game not found"⟩], 0⟩) := by
  decide

/-- C8 (the code departs from it): on one connection a game is created, joined,
and joined again; the second join replaces the joiner id `uuu` that the first
join stored by `uuuu`. -/
theorem second_join_replaces_joiner :
    Store.lookup
      (WebsocketHandler (memEnv demoUuid)
        [⟨"GENERATE_NEW_GAME", ⟨"", "", "", "", ""⟩⟩, ⟨"JOIN_GAME", ⟨"uu", "", "", "", ""⟩⟩]
        (World.init [])).2.store "uu" = some ⟨"uu", "u", "uuu", "", ""⟩ ∧
    Store.lookup
      (WebsocketHandler (memEnv demoUuid)
        [⟨"GENERATE_NEW_GAME", ⟨"", "", "", "", ""⟩⟩, ⟨"JOIN_GAME", ⟨"uu", "", "", "", ""⟩⟩,
         ⟨"JOIN_GAME", ⟨"uu", "", "", "", ""⟩⟩]
        (World.init [])).2.store "uu" = some ⟨"uu", "u", "uuuu", "", ""⟩ := by
  decide

/-- C10 (the code departs from it): a `MAKE_MOVE` on a stored session succeeds
and its success response carries the command `JOIN_GAME`. -/
theorem move_response_command :
    WebsocketHandler.iteration (memEnv demoUuid)
        ⟨"MAKE_MOVE", ⟨"g", "", "", "X at 0,0", "c"⟩⟩ (World.init [⟨"g", "c", "j", "", ""⟩]) =
      (Status.running,
        ⟨[⟨"g", "c", "j", "X at 0,0", "c"⟩],
         [RepoCall.findByGameID "g", RepoCall.update ⟨"g", "c", "j", "X at 0,0", "c"⟩],
         [Frame.error ⟨400, "No game state provided"⟩,
          Frame.response ⟨"JOIN_GAME", 200, ⟨"g", "c", "j", "X at 0,0", "c"⟩, "OK"⟩], 0⟩) := by
  decide

end TicTacGo
